import Mathlib

/-!
Verification development for the chat session manager in `src/App.tsx`.

The component under study owns a message thread, a pending-request flag and a
response-normalization routine (`callAgentAPI`, lines 45-82) plus the three
event handlers `handleSendMessage` (84-122), `handleClearChat` (124-127) and
the key handler.  The embedding below translates those parts of the source:

* `Json` models the JavaScript values that can flow through the normalizer
  (decoded response bodies and values extracted from them).  JSON numeric
  literals are modelled as integers; no claim involves fractional numbers.
* `jsGet` models JavaScript property access `v.k` (a `TypeError` on `null`,
  `undefined` — `none` — on primitives and absent fields).
* `jsOrOpt`/`truthy` model the `a || b` chains with JavaScript truthiness.
* `stringify` models `JSON.stringify`, `jsToString` the `String()` coercion
  that `JSON.parse` applies to a non-string argument, and `parseJson` models
  `JSON.parse` (returning `none` where `JSON.parse` throws).
* `normalize` is the parse/fallback logic of `callAgentAPI` lines 66-81,
  with `Except Unit` tracking the exceptions that escape the `try`/`catch`.
-/

namespace ChatApp

/-- JavaScript/JSON values reachable in the normalizer.  Numbers are modelled
as integers (`num`); the source never manipulates fractional values. -/
inductive Json where
  | null
  | bool (b : Bool)
  | num (n : Int)
  | str (s : String)
  | arr (xs : List Json)
  | obj (fs : List (String × Json))

/-- First binding of a key in an object literal, `none` when absent
(JavaScript `undefined`). -/
def getField : List (String × Json) → String → Option Json
  | [], _ => none
  | (k, v) :: rest, key => if k = key then some v else getField rest key

/-- JavaScript truthiness of a value. -/
def truthy : Json → Bool
  | .null => false
  | .bool b => b
  | .num n => n != 0
  | .str s => s != ""
  | .arr _ => true
  | .obj _ => true

/-- Models `a || b` where `a` came from a property access (`none` is
`undefined`, hence falsy): the left value when truthy, else `b`. -/
def jsOrOpt (a : Option Json) (b : Json) : Json :=
  match a with
  | some v => if truthy v then v else b
  | none => b

/-- Property access `v.k`: throws a `TypeError` when `v` is `null`; yields
`undefined` (`none`) on primitives, arrays and absent object fields (the
source only reads names that are not built-in string/array properties). -/
def jsGet : Json → String → Except Unit (Option Json)
  | .null, _ => .error ()
  | .obj fs, k => .ok (getField fs k)
  | _, _ => .ok none

/-- True exactly on string values; used to state which normalizer results
are display strings. -/
def isStr : Json → Bool
  | .str _ => true
  | _ => false

/-- Two lowercase hex digits of `n % 256`, for `\u00XX` escapes. -/
def hexByte (n : Nat) : String :=
  let dig : Nat → Char := fun d => if d < 10 then Char.ofNat (48 + d) else Char.ofNat (87 + d)
  String.mk [dig ((n / 16) % 16), dig (n % 16)]

/-- Escape one character as `JSON.stringify` renders it inside a string. -/
def escapeChar (c : Char) : String :=
  if c = Char.ofNat 34 then "\\\""
  else if c = Char.ofNat 92 then "\\\\"
  else if c = Char.ofNat 10 then "\\n"
  else if c = Char.ofNat 9 then "\\t"
  else if c = Char.ofNat 13 then "\\r"
  else if c = Char.ofNat 8 then "\\b"
  else if c = Char.ofNat 12 then "\\f"
  else if c.toNat < 32 then "\\u00" ++ hexByte c.toNat
  else String.mk [c]

/-- Render a string with quotes and escapes as `JSON.stringify` does. -/
def quoteStr (s : String) : String :=
  "\"" ++ String.join (s.toList.map escapeChar) ++ "\""

mutual

/-- Models `JSON.stringify` on the modelled values (line 70's fallback). -/
def stringify : Json → String
  | .null => "null"
  | .bool b => if b then "true" else "false"
  | .num n => toString n
  | .str s => quoteStr s
  | .arr xs => "[" ++ stringifyElems xs ++ "]"
  | .obj fs => "\x7b" ++ stringifyFields fs ++ "\x7d"

def stringifyElems : List Json → String
  | [] => ""
  | [x] => stringify x
  | x :: rest => stringify x ++ "," ++ stringifyElems rest

def stringifyFields : List (String × Json) → String
  | [] => ""
  | [(k, v)] => quoteStr k ++ ":" ++ stringify v
  | (k, v) :: rest => quoteStr k ++ ":" ++ stringify v ++ "," ++ stringifyFields rest

end

mutual

/-- Models the `String()` coercion `JSON.parse` applies to its argument:
`null` renders as `"null"`, arrays join their elements with commas (a `null`
element renders empty), objects render as `"[object Object]"`. -/
def jsToString : Json → String
  | .null => "null"
  | .bool b => if b then "true" else "false"
  | .num n => toString n
  | .str s => s
  | .arr xs => arrJoin xs
  | .obj _ => "[object Object]"

def arrJoin : List Json → String
  | [] => ""
  | x :: rest =>
    (match x with
     | .null => ""
     | v => jsToString v) ++
    (match rest with
     | [] => ""
     | _ => "," ++ arrJoin rest)

end

/-- Drop leading JSON whitespace. -/
def skipWs : List Char → List Char
  | c :: rest =>
    if c = ' ' ∨ c = Char.ofNat 9 ∨ c = Char.ofNat 10 ∨ c = Char.ofNat 13 then skipWs rest
    else c :: rest
  | [] => []

/-- Value of a hex digit, if any. -/
def hexVal (c : Char) : Option Nat :=
  if '0' ≤ c ∧ c ≤ '9' then some (c.toNat - 48)
  else if 'a' ≤ c ∧ c ≤ 'f' then some (c.toNat - 87)
  else if 'A' ≤ c ∧ c ≤ 'F' then some (c.toNat - 55)
  else none

/-- Consume a run of decimal digits (at least one), returning its value. -/
def parseDigits : List Char → Option (Nat × List Char)
  | [] => none
  | c :: rest =>
    if c.isDigit then
      let rec go : Nat → List Char → Nat × List Char
        | acc, [] => (acc, [])
        | acc, d :: ds => if d.isDigit then go (acc * 10 + (d.toNat - 48)) ds else (acc, d :: ds)
      some (go (c.toNat - 48) rest)
    else none

/-- Body of a JSON string literal after the opening quote, handling the
escapes `JSON.parse` accepts. -/
def parseStringBody : Nat → List Char → Option (String × List Char)
  | 0, _ => none
  | _ + 1, [] => none
  | fuel + 1, c :: rest =>
    if c = Char.ofNat 34 then some ("", rest)
    else if c = Char.ofNat 92 then
      match rest with
      | [] => none
      | e :: rest2 =>
        let cont : Char → List Char → Option (String × List Char) := fun ch tail =>
          match parseStringBody fuel tail with
          | some (s, r) => some (String.mk [ch] ++ s, r)
          | none => none
        if e = Char.ofNat 34 then cont (Char.ofNat 34) rest2
        else if e = Char.ofNat 92 then cont (Char.ofNat 92) rest2
        else if e = '/' then cont '/' rest2
        else if e = 'n' then cont (Char.ofNat 10) rest2
        else if e = 't' then cont (Char.ofNat 9) rest2
        else if e = 'r' then cont (Char.ofNat 13) rest2
        else if e = 'b' then cont (Char.ofNat 8) rest2
        else if e = 'f' then cont (Char.ofNat 12) rest2
        else if e = 'u' then
          match rest2 with
          | a :: b :: c2 :: d :: rest3 =>
            match hexVal a, hexVal b, hexVal c2, hexVal d with
            | some ha, some hb, some hc, some hd =>
              cont (Char.ofNat (((ha * 16 + hb) * 16 + hc) * 16 + hd)) rest3
            | _, _, _, _ => none
          | _ => none
        else none
    else
      match parseStringBody fuel rest with
      | some (s, r) => some (String.mk [c] ++ s, r)
      | none => none

/-- Match the literal tail of `null` / `true` / `false`. -/
def matchLit : List Char → List Char → Option (List Char)
  | [], rest => some rest
  | _, [] => none
  | l :: ls, c :: cs => if c = l then matchLit ls cs else none

mutual

/-- Recursive-descent JSON value parser (fuel-indexed for totality). -/
def parseVal : Nat → List Char → Option (Json × List Char)
  | 0, _ => none
  | fuel + 1, cs =>
    match skipWs cs with
    | [] => none
    | c :: rest =>
      if c = 'n' then
        match matchLit ['u', 'l', 'l'] rest with
        | some r => some (.null, r)
        | none => none
      else if c = 't' then
        match matchLit ['r', 'u', 'e'] rest with
        | some r => some (.bool true, r)
        | none => none
      else if c = 'f' then
        match matchLit ['a', 'l', 's', 'e'] rest with
        | some r => some (.bool false, r)
        | none => none
      else if c = Char.ofNat 34 then
        match parseStringBody (fuel + 1) rest with
        | some (s, r) => some (.str s, r)
        | none => none
      else if c = Char.ofNat 123 then parseObjBody fuel rest
      else if c = '[' then parseArrBody fuel rest
      else if c = '-' then
        match parseDigits rest with
        | some (n, r) => some (.num (-(Int.ofNat n)), r)
        | none => none
      else if c.isDigit then
        match parseDigits (c :: rest) with
        | some (n, r) => some (.num (Int.ofNat n), r)
        | none => none
      else none

/-- Members of an object after the opening brace. -/
def parseObjBody : Nat → List Char → Option (Json × List Char)
  | 0, _ => none
  | fuel + 1, cs =>
    match skipWs cs with
    | [] => none
    | c :: rest =>
      if c = Char.ofNat 125 then some (.obj [], rest)
      else parseMembers fuel (c :: rest)

def parseMembers : Nat → List Char → Option (Json × List Char)
  | 0, _ => none
  | fuel + 1, cs =>
    match skipWs cs with
    | [] => none
    | c :: rest =>
      if c = Char.ofNat 34 then
        match parseStringBody (fuel + 1) rest with
        | none => none
        | some (k, r1) =>
          match skipWs r1 with
          | ':' :: r2 =>
            match parseVal fuel r2 with
            | none => none
            | some (v, r3) =>
              match skipWs r3 with
              | ',' :: r4 =>
                match parseMembers fuel r4 with
                | some (.obj fs, r5) => some (.obj ((k, v) :: fs), r5)
                | _ => none
              | c5 :: r5 =>
                if c5 = Char.ofNat 125 then some (.obj [(k, v)], r5) else none
              | [] => none
          | _ => none
      else none

/-- Elements of an array after the opening bracket. -/
def parseArrBody : Nat → List Char → Option (Json × List Char)
  | 0, _ => none
  | fuel + 1, cs =>
    match skipWs cs with
    | [] => none
    | c :: rest =>
      if c = ']' then some (.arr [], rest)
      else parseElems fuel (c :: rest)

def parseElems : Nat → List Char → Option (Json × List Char)
  | 0, _ => none
  | fuel + 1, cs =>
    match parseVal fuel cs with
    | none => none
    | some (v, r1) =>
      match skipWs r1 with
      | ',' :: r2 =>
        match parseElems fuel r2 with
        | some (.arr xs, r3) => some (.arr (v :: xs), r3)
        | _ => none
      | ']' :: r2 => some (.arr [v], r2)
      | _ => none

end

/-- Models `JSON.parse` on a string: `none` where `JSON.parse` throws. -/
def parseJson (s : String) : Option Json :=
  match parseVal (4 * (s.length + 2)) s.toList with
  | some (v, rest) =>
    match skipWs rest with
    | [] => some v
    | _ => none
  | none => none

/-- Whitespace as `String.prototype.trim` removes it, restricted to the ASCII
whitespace characters plus no-break space (the full ECMAScript set also
includes rarer Unicode space separators, which no claim involves). -/
def isJsWs (c : Char) : Bool :=
  c = ' ' ∨ c = Char.ofNat 9 ∨ c = Char.ofNat 10 ∨ c = Char.ofNat 13 ∨
  c = Char.ofNat 11 ∨ c = Char.ofNat 12 ∨ c = Char.ofNat 160

/-- Drop leading JavaScript whitespace characters. -/
def dropLeadingWs : List Char → List Char
  | [] => []
  | c :: rest => if isJsWs c then dropLeadingWs rest else c :: rest

/-- Models `s.trim()`: strip whitespace from both ends. -/
def jsTrim (s : String) : String :=
  String.mk ((dropLeadingWs (dropLeadingWs s.toList.reverse).reverse))

/-- Agent identifier constants (`AGENT_IDS`, lines 11-14). -/
def AGENT_IDS_conversation : String := "68e116d6615699d53b623c87"

def AGENT_IDS_summarization : String := "68e116e33637bc8ddc9ffb63"

/-- Default reply used by the conversational branch and the catch fallback
(lines 74 and 80). -/
def defaultConv : String := "I received your message."

/-- Default reply of the summarization branch (line 76). -/
def defaultSumm : String := "Summary not available."

/-- Fixed text of the synthetic failure turn (line 113). -/
def errorText : String :=
  "Sorry, I encountered an error while processing your request. Please try again."

/-- Models `parsed.result?.summary` given the access result for `result`:
optional chaining yields `undefined` when `result` is absent or `null`,
otherwise reads `summary` from it. -/
def optChainSummary : Option Json → Except Unit (Option Json)
  | none => .ok none
  | some .null => .ok none
  | some v => jsGet v "summary"

/-- The chain `v.response || v.message || 'I received your message.'`,
which the source uses twice: on the parsed content for the conversational
agent (line 74) and on the top-level body in the catch fallback (line 80). -/
def respMsgChain (v : Json) : Except Unit Json :=
  match jsGet v "response" with
  | .error _ => .error ()
  | .ok r =>
    match jsGet v "message" with
    | .error _ => .error ()
    | .ok m => .ok (jsOrOpt r (jsOrOpt m (.str defaultConv)))

/-- The summarization chain
`parsed.result?.summary || parsed.summary || 'Summary not available.'`
(line 76). -/
def summChain (parsed : Json) : Except Unit Json :=
  match jsGet parsed "result" with
  | .error _ => .error ()
  | .ok res =>
    match optChainSummary res with
    | .error _ => .error ()
    | .ok s1 =>
      match jsGet parsed "summary" with
      | .error _ => .error ()
      | .ok s2 => .ok (jsOrOpt s1 (jsOrOpt s2 (.str defaultSumm)))

/-- Line 70: `data.response || data.content || JSON.stringify(data)`. -/
def extractRaw (data : Json) : Except Unit Json :=
  match jsGet data "response" with
  | .error _ => .error ()
  | .ok resp =>
    match jsGet data "content" with
    | .error _ => .error ()
    | .ok cont => .ok (jsOrOpt resp (jsOrOpt cont (.str (stringify data))))

/-- The `try` block of lines 69-77: extract the raw content, parse it, and
read the agent-specific reply fields.  `.error ()` is a thrown exception
(either a property access on `null` or a `JSON.parse` failure). -/
def normalizeTry (agentId : String) (data : Json) : Except Unit Json :=
  match extractRaw data with
  | .error _ => .error ()
  | .ok rawContent =>
    match parseJson (jsToString rawContent) with
    | none => .error ()
    | some parsed =>
      if agentId = AGENT_IDS_conversation then respMsgChain parsed
      else summChain parsed

/-- Response normalization of `callAgentAPI` (lines 66-81): the `try` block,
and on a thrown exception the `catch` fallback
`data.response || data.message || defaultConv` (line 80), whose own property
accesses can throw again when `data` is `null`. -/
def normalize (agentId : String) (data : Json) : Except Unit Json :=
  match normalizeTry agentId data with
  | .ok v => .ok v
  | .error _ => respMsgChain data

/-- Originator of a turn. -/
inductive Sender where
  | user
  | agent

/-- One turn of the thread (the `Message` type, lines 3-9).  Identifiers and
timestamps are supplied by the environment as numbers. -/
structure Message where
  id : Nat
  content : Json
  sender : Sender
  timestamp : Nat
  isError : Bool

/-- Agent selection (`currentAgent` state, line 33). -/
inductive Agent where
  | conversation
  | summarization

/-- Maps the selection to the remote agent identifier (line 99). -/
def agentIdOf : Agent → String
  | .conversation => AGENT_IDS_conversation
  | .summarization => AGENT_IDS_summarization

/-- The session state owned by the component: thread, input box, busy flag
(`isTyping`) and agent selection. -/
structure ChatState where
  messages : List Message
  inputValue : String
  isTyping : Bool
  currentAgent : Agent

/-- Synchronous phase of `handleSendMessage` (lines 84-100, up to the
`await`): blank input is a no-op; otherwise the user turn is appended, the
input cleared, the busy flag set, and one transport call is issued carrying
the selected agent identifier and the original (untrimmed) input text.  The
second component is the issued call, `none` when no call is made. -/
def sendStart (s : ChatState) (uid t : Nat) : ChatState × Option (String × String) :=
  if jsTrim s.inputValue = "" then (s, none)
  else
    ({ messages := s.messages ++ [⟨uid, .str s.inputValue, .user, t, false⟩],
       inputValue := "",
       isTyping := true,
       currentAgent := s.currentAgent },
     some (agentIdOf s.currentAgent, s.inputValue))

/-- Result of `callAgentAPI` as seen by `handleSendMessage`: the transport
outcome (decoded body, or a thrown network/HTTP/decoding error) composed with
the normalizer. -/
def callAgentAPIResult (agentId : String) (transport : Except Unit Json) : Except Unit Json :=
  match transport with
  | .error _ => .error ()
  | .ok data => normalize agentId data

/-- The turn appended when the outstanding call resolves: the normalized
reply on success (lines 102-109), the fixed failure turn with
`error: true` on a thrown error (lines 110-118). -/
def resolveMsg (res : Except Unit Json) (aid t : Nat) : Message :=
  match res with
  | .ok v => ⟨aid, v, .agent, t, false⟩
  | .error _ => ⟨aid, .str errorText, .agent, t, true⟩

/-- Resolution phase of `handleSendMessage` (lines 98-121): the result turn
is appended to whatever thread exists at resolution time (the functional
update `prev => [...prev, msg]`), and the `finally` clears the busy flag. -/
def sendResolve (s : ChatState) (res : Except Unit Json) (aid t : Nat) : ChatState :=
  match res with
  | .ok v =>
    { messages := s.messages ++ [⟨aid, v, .agent, t, false⟩],
      inputValue := s.inputValue, isTyping := false, currentAgent := s.currentAgent }
  | .error _ =>
    { messages := s.messages ++ [⟨aid, .str errorText, .agent, t, true⟩],
      inputValue := s.inputValue, isTyping := false, currentAgent := s.currentAgent }

/-- A full uninterrupted round of `handleSendMessage`: the synchronous phase,
then — when a call was issued — resolution against the transport outcome. -/
def handleSendMessage (s : ChatState) (uid aid t1 t2 : Nat)
    (transport : Except Unit Json) : ChatState :=
  match sendStart s uid t1 with
  | (s1, none) => s1
  | (s1, some (agentId, _)) => sendResolve s1 (callAgentAPIResult agentId transport) aid t2

/-- `handleClearChat` (lines 124-127): empties the thread and clears the busy
flag; the input box and agent selection are untouched. -/
def handleClearChat (s : ChatState) : ChatState :=
  { messages := [], inputValue := s.inputValue,
    isTyping := false, currentAgent := s.currentAgent }

/-- Total counterpart of `jsGet`, used in statements: property lookup that
agrees with `jsGet` on every non-`null` value. -/
def objGet : Json → String → Option Json
  | .obj fs, k => getField fs k
  | _, _ => none

/-- Value of `res?.summary` given the access result for `result`. -/
def resultSummaryOf : Option Json → Option Json
  | none => none
  | some .null => none
  | some w => objGet w "summary"

/-- Value of `parsed.result?.summary` on a non-`null` parsed value. -/
def resultSummary (parsed : Json) : Option Json :=
  resultSummaryOf (objGet parsed "result")

theorem jsGet_eq_objGet (d : Json) (k : String) (h : d ≠ .null) :
    jsGet d k = .ok (objGet d k) := by
  cases d <;> first | exact absurd rfl h | rfl

theorem optChainSummary_eq (res : Option Json) :
    optChainSummary res = .ok (resultSummaryOf res) := by
  cases res with
  | none => rfl
  | some v => cases v <;> rfl

theorem truthy_jsOrOpt (a : Option Json) (b : Json) (h : truthy b = true) :
    truthy (jsOrOpt a b) = true := by
  cases a with
  | none => simpa [jsOrOpt] using h
  | some v =>
    by_cases hv : truthy v = true <;> simp [jsOrOpt, hv, h]

theorem respMsgChain_eq (v : Json) (h : v ≠ .null) :
    respMsgChain v =
      .ok (jsOrOpt (objGet v "response")
        (jsOrOpt (objGet v "message") (.str defaultConv))) := by
  cases v <;> first | exact absurd rfl h | rfl

theorem summChain_eq (v : Json) (h : v ≠ .null) :
    summChain v =
      .ok (jsOrOpt (resultSummary v)
        (jsOrOpt (objGet v "summary") (.str defaultSumm))) := by
  cases v with
  | null => exact absurd rfl h
  | obj fs =>
    simp only [summChain, jsGet, optChainSummary_eq, resultSummary, objGet]
  | _ => rfl

theorem extractRaw_eq (data : Json) (h : data ≠ .null) :
    extractRaw data =
      .ok (jsOrOpt (objGet data "response")
        (jsOrOpt (objGet data "content") (.str (stringify data)))) := by
  cases data <;> first | exact absurd rfl h | rfl

theorem respMsgChain_ok_truthy (v r : Json) (h : respMsgChain v = .ok r) :
    truthy r = true := by
  cases v with
  | null => exact absurd h (by simp [respMsgChain, jsGet])
  | _ =>
    rw [respMsgChain_eq _ (by intro hx; exact Json.noConfusion hx)] at h
    cases h
    exact truthy_jsOrOpt _ _ (truthy_jsOrOpt _ _ rfl)

theorem summChain_ok_truthy (v r : Json) (h : summChain v = .ok r) :
    truthy r = true := by
  cases v with
  | null => exact absurd h (by simp [summChain, jsGet])
  | _ =>
    rw [summChain_eq _ (by intro hx; exact Json.noConfusion hx)] at h
    cases h
    exact truthy_jsOrOpt _ _ (truthy_jsOrOpt _ _ rfl)

theorem normalizeTry_ok_truthy (aid : String) (data v : Json)
    (h : normalizeTry aid data = .ok v) : truthy v = true := by
  unfold normalizeTry at h
  split at h
  · exact Except.noConfusion h
  · split at h
    · exact Except.noConfusion h
    · split at h
      · exact respMsgChain_ok_truthy _ v h
      · exact summChain_ok_truthy _ v h

theorem normalize_ok_truthy (aid : String) (data : Json) (h : data ≠ .null) :
    ∃ v, normalize aid data = .ok v ∧ truthy v = true := by
  unfold normalize
  cases htry : normalizeTry aid data with
  | ok v => exact ⟨v, rfl, normalizeTry_ok_truthy aid data v htry⟩
  | error e =>
    rw [respMsgChain_eq data h]
    exact ⟨_, rfl, truthy_jsOrOpt _ _ (truthy_jsOrOpt _ _ rfl)⟩

theorem normalize_eq_try (aid : String) (data v : Json)
    (h : normalizeTry aid data = .ok v) : normalize aid data = .ok v := by
  simp only [normalize, h]

theorem normalize_eq_catch (aid : String) (data : Json)
    (h : normalizeTry aid data = .error ()) :
    normalize aid data = respMsgChain data := by
  simp only [normalize, h]

theorem normalizeTry_parse_some (aid : String) (data raw parsed : Json)
    (hex : extractRaw data = .ok raw)
    (hp : parseJson (jsToString raw) = some parsed) :
    normalizeTry aid data =
      if aid = AGENT_IDS_conversation then respMsgChain parsed
      else summChain parsed := by
  simp only [normalizeTry, hex, hp]

theorem normalizeTry_parse_none (aid : String) (data raw : Json)
    (hex : extractRaw data = .ok raw)
    (hp : parseJson (jsToString raw) = none) :
    normalizeTry aid data = .error () := by
  simp only [normalizeTry, hex, hp]

theorem extractRaw_response_str (s : String) (h : s ≠ "") :
    extractRaw (.obj [("response", .str s)]) = .ok (.str s) := by
  simp [extractRaw, jsGet, getField, jsOrOpt, truthy, h]

theorem extractRaw_content_str (s : String) (h : s ≠ "") :
    extractRaw (.obj [("content", .str s)]) = .ok (.str s) := by
  simp [extractRaw, jsGet, getField, jsOrOpt, truthy, h]


/-- C1 as stated is false: `handleSendMessage` never consults the busy flag.
In the reachable state where a call is outstanding (`isTyping = true`) and
the user has typed "hi" during the wait, a second submission appends a user
turn (thread grows from 0 to 1) and issues a second transport call. -/
theorem c1_counterexample :
    (sendStart ⟨[], "hi", true, Agent.conversation⟩ 0 0).1.messages.length = 1 ∧
    (sendStart ⟨[], "hi", true, Agent.conversation⟩ 0 0).2 =
      some (AGENT_IDS_conversation, "hi") ∧
    (⟨[], "hi", true, Agent.conversation⟩ : ChatState).isTyping = true ∧
    (⟨[], "hi", true, Agent.conversation⟩ : ChatState).messages.length = 0 :=
  ⟨rfl, rfl, rfl, rfl⟩

/-- C1 amended: submission is guarded only by the blank-input check, and a
submission clears the input box; hence an immediate second submission while
the first is pending (with no new text typed) is a no-op — the state is
unchanged and no second transport call is issued. -/
theorem c1_amended (s : ChatState) (uid t uid2 t2 : Nat)
    (h : (sendStart s uid t).2.isSome = true) :
    sendStart (sendStart s uid t).1 uid2 t2 = ((sendStart s uid t).1, none) := by
  by_cases hb : jsTrim s.inputValue = ""
  · exfalso
    simp [sendStart, hb] at h
  · simp only [sendStart, if_neg hb]
    exact if_pos rfl

/-- Witness for C1's amended statement at a concrete busy state. -/
theorem c1_amended_witness :
    sendStart (sendStart ⟨[], "hi", false, Agent.conversation⟩ 5 6).1 7 8 =
      ((sendStart ⟨[], "hi", false, Agent.conversation⟩ 5 6).1, none) :=
  c1_amended ⟨[], "hi", false, Agent.conversation⟩ 5 6 7 8 rfl

/-- C2 as stated is false: for the conversational agent and the body
`\x7b"response": "not json"\x7d`, the inner parse fails and the catch
fallback reads the truthy top-level `response` field, so the display text is
"not json", not the default placeholder. -/
theorem c2_counterexample :
    normalize AGENT_IDS_conversation (.obj [("response", .str "not json")]) =
      .ok (.str "not json") ∧
    "not json" ≠ defaultConv :=
  ⟨rfl, by decide⟩

/-- C2 amended: for that body the display text is the top-level `response`
string "not json"; the default placeholder appears only when the top-level
body offers no truthy `response`/`message`, e.g. when the unparsable content
sits in `content` instead. -/
theorem c2_amended :
    normalize AGENT_IDS_conversation (.obj [("response", .str "not json")]) =
      .ok (.str "not json") ∧
    normalize AGENT_IDS_conversation (.obj [("content", .str "not json")]) =
      .ok (.str defaultConv) :=
  ⟨rfl, rfl⟩

/-- C3 as stated is false: for the summarization agent the parse-failure
fallback emits `defaultConv` ("I received your message.", line 80), while the
success path with both summary fields absent emits `defaultSumm`
("Summary not available.", line 76) — two different strings. -/
theorem c3_counterexample :
    normalize AGENT_IDS_summarization (.obj [("content", .str "not json")]) =
      .ok (.str defaultConv) ∧
    normalize AGENT_IDS_summarization (.obj [("content", .str "\x7b\x7d")]) =
      .ok (.str defaultSumm) ∧
    defaultConv ≠ defaultSumm :=
  ⟨rfl, rfl, by decide⟩

/-- C3 amended: when the extracted content fails to parse and the top-level
body has no `response`/`message` field, the normalizer emits `defaultConv`
for every agent (the catch fallback is agent-independent); this coincides
with the conversational default but differs from the summarization success
default. -/
theorem c3_amended :
    (∀ (aid : String) (data : Json), data ≠ .null →
      objGet data "response" = none → objGet data "message" = none →
      (∀ raw, extractRaw data = .ok raw → parseJson (jsToString raw) = none) →
      normalize aid data = .ok (.str defaultConv)) ∧
    defaultConv ≠ defaultSumm := by
  refine ⟨?_, by decide⟩
  intro aid data hnull hr hm hp
  obtain ⟨raw, hex⟩ : ∃ raw, extractRaw data = .ok raw := by
    rw [extractRaw_eq data hnull]; exact ⟨_, rfl⟩
  rw [normalize_eq_catch aid data (normalizeTry_parse_none aid data raw hex (hp raw hex)),
    respMsgChain_eq data hnull, hr, hm]
  rfl

/-- Witness for C3's amended statement: the summarization agent on the body
`\x7b"content": "not json"\x7d` emits the conversational default. -/
theorem c3_amended_witness :
    normalize AGENT_IDS_summarization (.obj [("content", .str "not json")]) =
      .ok (.str defaultConv) :=
  c3_amended.1 AGENT_IDS_summarization (.obj [("content", .str "not json")])
    (fun hx => Json.noConfusion hx) rfl rfl
    (fun raw hraw => by
      have h2 : Except.ok (Json.str "not json") = Except.ok raw := hraw
      cases h2
      rfl)

/-- C4 as stated is false: the content string "null" does parse as JSON, yet
the normalizer does not apply the agent-specific field order there — for the
summarization agent and body `\x7b"content": "null"\x7d` the access
`parsed.result` throws on `null`, the catch fallback runs, and the result is
`defaultConv`, not the field-order result `defaultSumm`. -/
theorem c4_counterexample :
    parseJson "null" = some Json.null ∧
    normalize AGENT_IDS_summarization (.obj [("content", .str "null")]) =
      .ok (.str defaultConv) ∧
    defaultConv ≠ defaultSumm :=
  ⟨rfl, rfl, by decide⟩

/-- C4 amended: when the extracted content string parses as JSON to a
non-`null` value, the normalizer follows the agent-specific field order —
conversational: parsed `response`, else `message`, else the default;
summarization: `result?.summary`, else `summary`, else the default — and in
particular Scenario A yields "Hi there" and Scenario B yields
"Short summary.".  (When the content parses to JSON `null`, the field access
throws and the catch fallback applies instead.) -/
theorem c4_field_order :
    normalize AGENT_IDS_conversation
        (.obj [("response", .str "\x7b\"response\":\"Hi there\"\x7d")]) =
      .ok (.str "Hi there") ∧
    normalize AGENT_IDS_summarization
        (.obj [("content", .str "\x7b\"result\":\x7b\"summary\":\"Short summary.\"\x7d\x7d")]) =
      .ok (.str "Short summary.") ∧
    (∀ (s : String) (parsed : Json), s ≠ "" → parseJson s = some parsed →
      parsed ≠ .null →
      normalize AGENT_IDS_conversation (.obj [("response", .str s)]) =
        .ok (jsOrOpt (objGet parsed "response")
          (jsOrOpt (objGet parsed "message") (.str defaultConv)))) ∧
    (∀ (s : String) (parsed : Json), s ≠ "" → parseJson s = some parsed →
      parsed ≠ .null →
      normalize AGENT_IDS_summarization (.obj [("content", .str s)]) =
        .ok (jsOrOpt (resultSummary parsed)
          (jsOrOpt (objGet parsed "summary") (.str defaultSumm)))) := by
  refine ⟨rfl, rfl, ?_, ?_⟩
  · intro s parsed hs hp hn
    have htry := normalizeTry_parse_some AGENT_IDS_conversation _ _ parsed
      (extractRaw_response_str s hs) hp
    rw [if_pos rfl] at htry
    exact normalize_eq_try _ _ _ (htry.trans (respMsgChain_eq parsed hn))
  · intro s parsed hs hp hn
    have htry := normalizeTry_parse_some AGENT_IDS_summarization _ _ parsed
      (extractRaw_content_str s hs) hp
    rw [if_neg (by decide)] at htry
    exact normalize_eq_try _ _ _ (htry.trans (summChain_eq parsed hn))

/-- Witness for C4 at a concrete parse-success input exercising the
second-choice `message` field. -/
theorem c4_field_order_witness :
    normalize AGENT_IDS_conversation
        (.obj [("response", .str "\x7b\"message\":\"m1\"\x7d")]) =
      .ok (jsOrOpt (objGet (.obj [("message", .str "m1")]) "response")
        (jsOrOpt (objGet (.obj [("message", .str "m1")]) "message")
          (.str defaultConv))) :=
  c4_field_order.2.2.1 "\x7b\"message\":\"m1\"\x7d" (.obj [("message", .str "m1")])
    (by decide) rfl (fun hx => Json.noConfusion hx)

/-- C5: when the transport call fails, resolution appends exactly one agent
turn carrying the fixed generic error text with `error = true`, leaves all
previously existing turns unchanged, and clears the busy flag. -/
theorem c5_transport_failure (s : ChatState) (agentId : String) (aid t : Nat) :
    sendResolve s (callAgentAPIResult agentId (.error ())) aid t =
      { messages := s.messages ++ [⟨aid, .str errorText, .agent, t, true⟩],
        inputValue := s.inputValue, isTyping := false,
        currentAgent := s.currentAgent } :=
  rfl

/-- C6 as stated is false: the body JSON `null` makes the normalizer throw
(the `catch` re-reads `data.response` and throws again), and a body whose
`response` field is a truthy non-string is returned as that non-string
value, not as a display string. -/
theorem c6_counterexample :
    normalize AGENT_IDS_conversation Json.null = .error () ∧
    normalize AGENT_IDS_conversation (.obj [("response", .obj [("a", .num 1)])]) =
      .ok (.obj [("a", .num 1)]) ∧
    isStr (.obj [("a", .num 1)]) = false :=
  ⟨rfl, rfl, rfl⟩

/-- C6 amended: for every decoded body other than JSON `null` the normalizer
never throws and returns a truthy value; whenever that value is a string it
is non-empty. -/
theorem c6_amended (aid : String) (data : Json) (h : data ≠ .null) :
    ∃ v, normalize aid data = .ok v ∧ truthy v = true ∧
      (∀ s, v = .str s → s ≠ "") := by
  obtain ⟨v, hv, ht⟩ := normalize_ok_truthy aid data h
  refine ⟨v, hv, ht, ?_⟩
  intro s hs
  subst hs
  simpa [truthy] using ht

/-- Witness for C6's amended statement at the empty-object body. -/
theorem c6_amended_witness :
    ∃ v, normalize AGENT_IDS_conversation (.obj []) = .ok v ∧
      truthy v = true ∧ (∀ s, v = .str s → s ≠ "") :=
  c6_amended AGENT_IDS_conversation (.obj []) (fun hx => Json.noConfusion hx)

/-- C7: submitting input that is empty or whitespace-only after trimming
leaves the whole session state unchanged and issues no transport call. -/
theorem c7_blank_noop (s : ChatState) (uid t : Nat)
    (h : jsTrim s.inputValue = "") :
    sendStart s uid t = (s, none) := by
  unfold sendStart
  rw [if_pos h]

/-- Witness for C7 at a whitespace-only input. -/
theorem c7_blank_noop_witness :
    sendStart ⟨[], "   ", false, Agent.conversation⟩ 1 2 =
      (⟨[], "   ", false, Agent.conversation⟩, none) :=
  c7_blank_noop ⟨[], "   ", false, Agent.conversation⟩ 1 2 rfl

/-- C8: `handleClearChat`, issued in any state, synchronously yields an
empty thread and a cleared busy flag. -/
theorem c8_clear (s : ChatState) :
    (handleClearChat s).messages = [] ∧ (handleClearChat s).isTyping = false :=
  ⟨rfl, rfl⟩

/-- C9: resolution appends the in-flight call's eventual result (success or
failure turn) to whatever thread exists at resolution time; in particular
after a mid-flight clear-chat the result turn still lands on the cleared
thread. -/
theorem c9_resolve_after_clear (s : ChatState) (res : Except Unit Json)
    (aid t : Nat) :
    (sendResolve s res aid t).messages = s.messages ++ [resolveMsg res aid t] ∧
    (sendResolve (handleClearChat s) res aid t).messages =
      [resolveMsg res aid t] := by
  cases res with
  | ok v => exact ⟨rfl, rfl⟩
  | error e => exact ⟨rfl, rfl⟩

/-- C10: for non-blank input the appended user turn stores the original
untrimmed text and the transport call carries that same untrimmed text;
trimming only gates whether the submission proceeds. -/
theorem c10_untrimmed (s : ChatState) (uid t : Nat)
    (h : jsTrim s.inputValue ≠ "") :
    (sendStart s uid t).1.messages =
      s.messages ++ [⟨uid, .str s.inputValue, .user, t, false⟩] ∧
    (sendStart s uid t).2 = some (agentIdOf s.currentAgent, s.inputValue) := by
  unfold sendStart
  rw [if_neg h]
  exact ⟨rfl, rfl⟩

/-- Witness for C10 at an input with leading and trailing whitespace. -/
theorem c10_untrimmed_witness :
    (sendStart ⟨[], "  hi ", false, Agent.conversation⟩ 3 4).1.messages =
      [⟨3, .str "  hi ", .user, 4, false⟩] ∧
    (sendStart ⟨[], "  hi ", false, Agent.conversation⟩ 3 4).2 =
      some (AGENT_IDS_conversation, "  hi ") :=
  c10_untrimmed ⟨[], "  hi ", false, Agent.conversation⟩ 3 4 (by decide)

end ChatApp
